import Mathlib

/-!
Shallow embedding of the KubeVela template-resolution engine
(`pkg/oam/util/template.go`): the `Template` data model, the extractor
`NewTemplate`, the locator `LoadTemplate` and the secondary path
`ConvertTemplateJSON2Object`, together with theorems settling the
specification claims about them.

Go pointers become `Option`, Go `(value, error)` pairs become either
`Except` (when `nil, nil` is impossible by the function's returns) or an
explicit pair of options (for `NewTemplate`, whose caller checks the
pointer for nil separately from the error). External collaborators (the
definition store reached through `GetDefinition`, and JSON decoding of the
opaque extension payload) are modelled as oracles, as the spec scopes them
out of the core.
-/

deriving instance DecidableEq for Except

/-- Modelled from the spec: `types.CapabilityCategory`, an enumerated tag
`Plain` (the zero value / default), `Helm`, or `Terraform`; the `types`
package is not part of the fragment. -/
inductive CapabilityCategory
  | Plain
  | Helm
  | Terraform
  deriving DecidableEq, Repr

/-- Modelled from the spec: `types.CapType`, the capability kind requested
from the locator: `Component`, `Trait`, or `Scope`. -/
inductive CapType
  | typeComponentDefinition
  | typeTrait
  | typeScope
  deriving DecidableEq, Repr

/-- Outcome class of a store query (`GetDefinition`): `notFound` is the
class recognized by `kerrors.IsNotFound`, `other` is any other failure. -/
inductive GetErr
  | notFound
  | other (msg : String)
  deriving DecidableEq, Repr

/-- A decoded JSON value, the shape `json.Unmarshal` produces for
`interface\x7b\x7d` entries of a string-keyed map. -/
inductive JValue
  | str (s : String)
  | num (n : Int)
  | boolean (b : Bool)
  | null
  | arr (xs : List JValue)
  | obj (fields : List (String × JValue))

/-- Modelled from the spec: `types.Capability`, the capability-shaped
descriptor built by the secondary path; broader than `Template`.
`Description` stands for the arbitrary extra descriptor fields an
extension blob may populate. -/
structure Capability where
  Name : String := ""
  Description : String := ""
  CueTemplate : String := ""
  deriving DecidableEq, Repr

/-- Modelled from the spec: `runtime.RawExtension`, the opaque JSON
extension payload. JSON decoding is an external collaborator, so the
payload is represented by the outcomes of the two decodings the code
performs on it: into a string-keyed map (`NewTemplate`) and onto an
existing `Capability` value (`ConvertTemplateJSON2Object`; Go merges
decoded fields into the given value). `rawNil` models a nil `Raw` byte
slice (`in.Raw == nil`). -/
structure RawExtension where
  rawNil : Bool := false
  unmarshalMap : Except String (List (String × JValue))
  unmarshalCap : Capability → Except String Capability

/-- Modelled from the spec: `v1alpha2.CUE`, the CUE-language template body. -/
structure CUE where
  Template : String
  deriving DecidableEq, Repr

/-- Modelled from the spec: `v1alpha2.Helm`, a Helm-chart reference
(opaque release/repository payload). -/
structure Helm where
  release : String := ""
  repository : String := ""
  deriving DecidableEq, Repr

/-- Modelled from the spec: `v1alpha2.Schematic`, the structured union of
template representations; in Go both variants are pointers and may in
principle be populated simultaneously. -/
structure Schematic where
  CUE : Option CUE := none
  HELM : Option Helm := none
  deriving DecidableEq, Repr

/-- Modelled from the spec: `v1alpha2.Status`, the pair of custom-status
and health-check rules. -/
structure Status where
  CustomStatus : String := ""
  HealthPolicy : String := ""
  deriving DecidableEq, Repr

/-- Modelled from the spec: `v1alpha2.WorkloadGVK`, the workload
group/version/kind reference. -/
structure WorkloadGVK where
  APIVersion : String := ""
  Kind : String := ""
  deriving DecidableEq, Repr

/-- Modelled from the spec: `v1alpha2.WorkloadTypeDescriptor`, carrying the
workload `Definition` GVK of a ComponentDefinition (`TypeName` renders the
Go field `Type`, a Lean keyword). -/
structure WorkloadTypeDescriptor where
  TypeName : String := ""
  Definition : WorkloadGVK := {}
  deriving DecidableEq, Repr

/-- Modelled from the spec: the fields of `v1alpha2.ComponentDefinitionSpec`
consumed by the locator. -/
structure ComponentDefinitionSpec where
  Workload : WorkloadTypeDescriptor := {}
  Schematic : Option Schematic := none
  Status : Option Status := none
  Extension : Option RawExtension := none

/-- Modelled from the spec: a `v1alpha2.ComponentDefinition` object; only
the metadata annotations and the spec fields the locator reads. -/
structure ComponentDefinition where
  Annotations : List (String × String) := []
  Spec : ComponentDefinitionSpec := {}

/-- Modelled from the spec: the fields of `v1alpha2.WorkloadDefinitionSpec`
consumed by the locator. -/
structure WorkloadDefinitionSpec where
  Schematic : Option Schematic := none
  Status : Option Status := none
  Extension : Option RawExtension := none

/-- Modelled from the spec: a `v1alpha2.WorkloadDefinition` object. -/
structure WorkloadDefinition where
  Annotations : List (String × String) := []
  Spec : WorkloadDefinitionSpec := {}

/-- Modelled from the spec: the fields of `v1alpha2.TraitDefinitionSpec`
consumed by the locator. -/
structure TraitDefinitionSpec where
  Schematic : Option Schematic := none
  Status : Option Status := none
  Extension : Option RawExtension := none

/-- Modelled from the spec: a `v1alpha2.TraitDefinition` object. -/
structure TraitDefinition where
  Annotations : List (String × String) := []
  Spec : TraitDefinitionSpec := {}

/-- `Template` includes its string, health and its category
(`pkg/oam/util/template.go`, type `Template`). Go zero values are the
defaults: empty strings, zero GVK, `Plain` category, nil Helm pointer. -/
structure Template where
  TemplateStr : String := ""
  Health : String := ""
  CustomStatus : String := ""
  CapabilityCategory : CapabilityCategory := CapabilityCategory.Plain
  Reference : WorkloadGVK := {}
  Helm : Option Helm := none
  deriving DecidableEq, Repr

/-- Go map indexing `anns["type"]` on a possibly-nil annotations map:
a missing key yields the zero value `""`. -/
def annLookup (anns : List (String × String)) (k : String) : String :=
  match anns.lookup k with
  | some v => v
  | none => ""

/-- Modelled from the spec: the read-only store interface behind
`GetDefinition(kind, name)`, one oracle per definition kind reachable from
`LoadTemplate`. -/
structure DefStore where
  componentDefs : String → Except GetErr ComponentDefinition
  workloadDefs : String → Except GetErr WorkloadDefinition
  traitDefs : String → Except GetErr TraitDefinition

/-- The legacy-extension step of `NewTemplate`: when no schematic variant
short-circuited and the raw payload is present, decode it into a
string-keyed map (failure propagates the decode error, returning a nil
template) and, if a `template` key holds a string, take it as the
template body. -/
def rawExtensionStep (tmp : Template) (raw : Option RawExtension) :
    Option Template × Option String :=
  if tmp.TemplateStr == "" then
    match raw with
    | some r =>
      match r.unmarshalMap with
      | Except.error e => (none, some e)
      | Except.ok ext =>
        match ext.lookup "template" with
        | some (JValue.str s) => (some { tmp with TemplateStr := s }, none)
        | _ => (some tmp, none)
    | none => (some tmp, none)
  else (some tmp, none)

/-- The unconditional status copy at the top of `NewTemplate`: starting
from the zero `Template`, copy `CustomStatus` and `HealthPolicy` when the
status pair is present. -/
def statusStep (status : Option Status) : Template :=
  match status with
  | some st => { CustomStatus := st.CustomStatus, Health := st.HealthPolicy }
  | none => {}

/-- The schematic priority chain of `NewTemplate`: a non-nil CUE variant
wins and sets the template body; otherwise a non-nil Helm variant sets the
Helm reference and the Helm category; `none` means neither variant
short-circuited and the legacy-extension step runs. -/
def schematicShortCircuit (tmp : Template) (schematic : Option Schematic) :
    Option Template :=
  match schematic with
  | some s =>
    match s.CUE with
    | some cue => some { tmp with TemplateStr := cue.Template }
    | none =>
      match s.HELM with
      | some h => some { tmp with Helm := some h,
                                  CapabilityCategory := CapabilityCategory.Helm }
      | none => none
  | none => none

/-- `NewTemplate` will create template for inner AbstractEngine using
(`pkg/oam/util/template.go`). The result is the Go pair
`(*Template, error)`: `(some t, none)` on success, `(none, some e)` when
decoding the raw extension fails; `(none, none)` never occurs. -/
def NewTemplate (schematic : Option Schematic) (status : Option Status)
    (raw : Option RawExtension) : Option Template × Option String :=
  match schematicShortCircuit (statusStep status) schematic with
  | some t => (some t, none)
  | none => rawExtensionStep (statusStep status) raw

/-- The errors `LoadTemplate` returns, one constructor per `return nil, err`
site: a failed store query wrapped with the resource kind and key, a failed
`NewTemplate` wrapped with the key, the literal
"no template found in definition", and the unsupported-kind fallthrough. -/
inductive LoadError
  | lookupFailed (resource : String) (key : String) (cause : GetErr)
  | templateFailed (key : String) (cause : String)
  | noTemplateFound
  | unsupportedKind (kind : CapType) (key : String)
  deriving DecidableEq, Repr

/-- The tail of the component branch of `LoadTemplate`: build the template
from the gathered schematic/status/extension, check the Go nil-pointer
guard, then attach `cd.Spec.Workload.Definition` as the reference and the
Terraform category when `cd.Annotations["type"] == "terraform"`. In the
WorkloadDefinition fallback, `cd` is the zero ComponentDefinition left
untouched by the failed fetch. -/
def componentFinish (key : String) (cd : ComponentDefinition)
    (schematic : Option Schematic) (status : Option Status)
    (ext : Option RawExtension) : Except LoadError Template :=
  match NewTemplate schematic status ext with
  | (_, some e) => Except.error (LoadError.templateFailed key e)
  | (none, none) => Except.error LoadError.noTemplateFound
  | (some tmpl, none) =>
    let tmpl := { tmpl with Reference := cd.Spec.Workload.Definition }
    let tmpl :=
      if annLookup cd.Annotations "type" == "terraform" then
        { tmpl with CapabilityCategory := CapabilityCategory.Terraform }
      else tmpl
    Except.ok tmpl

/-- `LoadTemplate` gets a template according to key
(`pkg/oam/util/template.go`). Component kind falls back from
ComponentDefinition to WorkloadDefinition on not-found; trait kind reads
the TraitDefinition and overwrites the built template's category with the
annotation-derived one; scope kind falls through to the unsupported-kind
error. -/
def LoadTemplate (store : DefStore) (key : String) (kd : CapType) :
    Except LoadError Template :=
  match kd with
  | CapType.typeComponentDefinition =>
    match store.componentDefs key with
    | Except.error GetErr.notFound =>
      match store.workloadDefs key with
      | Except.error e => Except.error (LoadError.lookupFailed "WorkloadDefinition" key e)
      | Except.ok wd =>
        componentFinish key {} wd.Spec.Schematic wd.Spec.Status wd.Spec.Extension
    | Except.error e => Except.error (LoadError.lookupFailed "ComponentDefinition" key e)
    | Except.ok cd =>
      componentFinish key cd cd.Spec.Schematic cd.Spec.Status cd.Spec.Extension
  | CapType.typeTrait =>
    match store.traitDefs key with
    | Except.error e => Except.error (LoadError.lookupFailed "TraitDefinition" key e)
    | Except.ok td =>
      let capabilityCategory : CapabilityCategory :=
        if annLookup td.Annotations "type" == "terraform" then
          CapabilityCategory.Terraform
        else CapabilityCategory.Plain
      match NewTemplate td.Spec.Schematic td.Spec.Status td.Spec.Extension with
      | (_, some e) => Except.error (LoadError.templateFailed key e)
      | (none, none) => Except.error LoadError.noTemplateFound
      | (some tmpl, none) =>
        Except.ok { tmpl with CapabilityCategory := capabilityCategory }
  | CapType.typeScope =>
    Except.error (LoadError.unsupportedKind CapType.typeScope key)

/-- The guarded full-descriptor unmarshal step of
`ConvertTemplateJSON2Object`: when the extension and its raw bytes are
non-nil, decode the blob onto the descriptor, wrapping a failure as
"parse extension fail". On failure Go may leave the descriptor partially
mutated; only the error is observed there, so the pre-decode value is
returned. -/
def capUnmarshalStep (iN : Option RawExtension) (t : Capability) :
    Except String Capability :=
  match iN with
  | some r =>
    if r.rawNil then Except.ok t
    else
      match r.unmarshalCap t with
      | Except.error e => Except.error ("parse extension fail: " ++ e)
      | Except.ok t2 => Except.ok t2
  | none => Except.ok t

/-- `ConvertTemplateJSON2Object` converts spec.extension to object
(`pkg/oam/util/template.go`). Result is the Go pair
`(types.Capability, error)`. -/
def ConvertTemplateJSON2Object (capabilityName : String)
    (iN : Option RawExtension) (schematic : Option Schematic) :
    Capability × Option String :=
  let t : Capability := { Name := capabilityName }
  match NewTemplate schematic none iN with
  | (_, some e) => (t, some ("parse cue template: " ++ e))
  | (capTemplateOpt, none) =>
    let capTemplate : Template := capTemplateOpt.getD {}
    match capUnmarshalStep iN t with
    | Except.error e => (t, some e)
    | Except.ok t2 =>
      if capTemplate.TemplateStr != "" then
        ({ t2 with CueTemplate := capTemplate.TemplateStr }, none)
      else (t2, none)

/-! ### Helper lemmas -/

/-- The status copy never touches the template body. -/
theorem statusStep_TemplateStr (st : Option Status) :
    (statusStep st).TemplateStr = "" := by
  cases st <;> rfl

/-- The status copy never touches the Helm reference. -/
theorem statusStep_Helm (st : Option Status) :
    (statusStep st).Helm = none := by
  cases st <;> rfl

/-- The status copy leaves the category at its `Plain` zero value. -/
theorem statusStep_CapabilityCategory (st : Option Status) :
    (statusStep st).CapabilityCategory = CapabilityCategory.Plain := by
  cases st <;> rfl

/-- The status copy leaves the workload reference at its zero value. -/
theorem statusStep_Reference (st : Option Status) :
    (statusStep st).Reference = ({} : WorkloadGVK) := by
  cases st <;> rfl

/-- The extension step returns either a template with no error, or no
template with a decode error — never both or neither. -/
theorem rawExtensionStep_shape (tmp : Template) (raw : Option RawExtension) :
    (∃ t, rawExtensionStep tmp raw = (some t, none)) ∨
    (∃ e, rawExtensionStep tmp raw = (none, some e)) := by
  unfold rawExtensionStep
  split
  · cases raw with
    | none => exact Or.inl ⟨tmp, rfl⟩
    | some r =>
      cases hm : r.unmarshalMap with
      | error e => exact Or.inr ⟨e, by simp [hm]⟩
      | ok ext =>
        cases hl : ext.lookup "template" with
        | none => exact Or.inl ⟨tmp, by simp [hm, hl]⟩
        | some v => cases v <;> simp [hm, hl]
  · exact Or.inl ⟨tmp, rfl⟩

/-- `NewTemplate` mirrors the Go returns `(nil, err)` and `(tmp, nil)`:
the pair is either a template with no error or no template with an error. -/
theorem NewTemplate_shape (s : Option Schematic) (st : Option Status)
    (r : Option RawExtension) :
    (∃ t, NewTemplate s st r = (some t, none)) ∨
    (∃ e, NewTemplate s st r = (none, some e)) := by
  unfold NewTemplate
  cases h : schematicShortCircuit (statusStep st) s with
  | some t => exact Or.inl ⟨t, by simp [h]⟩
  | none =>
    simp only [h]
    exact rawExtensionStep_shape (statusStep st) r

/-- The Go pair `(nil, nil)` is unreachable for `NewTemplate`. -/
theorem NewTemplate_ne_none_none (s : Option Schematic) (st : Option Status)
    (r : Option RawExtension) :
    NewTemplate s st r ≠ (none, none) := by
  intro hc
  rcases NewTemplate_shape s st r with ⟨t, ht⟩ | ⟨e, he⟩
  · rw [hc] at ht
    exact Option.noConfusion (congrArg Prod.fst ht)
  · rw [hc] at he
    exact Option.noConfusion (congrArg Prod.snd he)

/-! ### Claims -/

/-- C10: for every name, `LoadTemplate` invoked with the Scope kind fails
unconditionally with the unsupported-kind error; no store query is
performed (the result does not depend on the store at all). -/
theorem C10_scope_unsupported (store : DefStore) (key : String) :
    LoadTemplate store key CapType.typeScope =
      Except.error (LoadError.unsupportedKind CapType.typeScope key) := rfl

/-- C6: when the ComponentDefinition fetch fails with not-found and the
fallback WorkloadDefinition fetch fails for any reason, `LoadTemplate`
fails with the lookup error naming "WorkloadDefinition" and the requested
key, wrapping the underlying cause. -/
theorem C6_workload_lookup_failed (store : DefStore) (key : String) (e : GetErr)
    (hcd : store.componentDefs key = Except.error GetErr.notFound)
    (hwd : store.workloadDefs key = Except.error e) :
    LoadTemplate store key CapType.typeComponentDefinition =
      Except.error (LoadError.lookupFailed "WorkloadDefinition" key e) := by
  simp [LoadTemplate, hcd, hwd]

/-- Store with no definitions at all: every lookup reports not-found. -/
def ghostStore : DefStore :=
  { componentDefs := fun _ => Except.error GetErr.notFound,
    workloadDefs := fun _ => Except.error GetErr.notFound,
    traitDefs := fun _ => Except.error GetErr.notFound }

/-- Witness for C6: resolving component "ghost" against the empty store
yields the WorkloadDefinition lookup error. -/
theorem C6_witness :
    LoadTemplate ghostStore "ghost" CapType.typeComponentDefinition =
      Except.error (LoadError.lookupFailed "WorkloadDefinition" "ghost" GetErr.notFound) :=
  C6_workload_lookup_failed ghostStore "ghost" GetErr.notFound rfl rfl

/-- C4: for every Component-kind resolution where the ComponentDefinition
is found and its schematic's CUE variant is non-nil, the returned
Template's body equals the CUE template body exactly and the Helm
reference is nil, regardless of the Helm variant or extension payload. -/
theorem C4_cue_precedence (store : DefStore) (key : String)
    (cd : ComponentDefinition) (s : Schematic) (cue : CUE)
    (hget : store.componentDefs key = Except.ok cd)
    (hs : cd.Spec.Schematic = some s)
    (hcue : s.CUE = some cue) :
    (LoadTemplate store key CapType.typeComponentDefinition).map
        (fun t => (t.TemplateStr, t.Helm)) =
      Except.ok (cue.Template, none) := by
  simp only [LoadTemplate, hget]
  simp only [componentFinish, NewTemplate, schematicShortCircuit, hs, hcue]
  split <;> simp [statusStep_Helm, Except.map]

/-- ComponentDefinition carrying a CUE body, a Helm variant and a
malformed extension payload at once. -/
def c4CD : ComponentDefinition :=
  { Annotations := [],
    Spec := { Workload := { Definition := { APIVersion := "apps/v1", Kind := "Deployment" } },
              Schematic := some { CUE := some { Template := "cue body" },
                                  HELM := some { release := "rel", repository := "repo" } },
              Status := none,
              Extension := some { unmarshalMap := Except.error "invalid JSON",
                                  unmarshalCap := fun _ => Except.error "invalid JSON" } } }

/-- Store holding only `c4CD` under the key "web". -/
def c4Store : DefStore :=
  { componentDefs := fun k => if k == "web" then Except.ok c4CD else Except.error GetErr.notFound,
    workloadDefs := fun _ => Except.error GetErr.notFound,
    traitDefs := fun _ => Except.error GetErr.notFound }

/-- Witness for C4: with the Helm variant and a malformed extension also
present, the CUE body still wins and Helm stays nil. -/
theorem C4_witness :
    (LoadTemplate c4Store "web" CapType.typeComponentDefinition).map
        (fun t => (t.TemplateStr, t.Helm)) = Except.ok ("cue body", none) :=
  C4_cue_precedence c4Store "web" c4CD
    { CUE := some { Template := "cue body" },
      HELM := some { release := "rel", repository := "repo" } }
    { Template := "cue body" } rfl rfl rfl

/-- C5: when the ComponentDefinition lookup is not-found but a
WorkloadDefinition of the same name exists with a non-nil CUE variant,
resolution succeeds with that body, the workload reference left at its
zero value, and the `Plain` category — whatever the WorkloadDefinition's
own annotations say. -/
theorem C5_workload_fallback (store : DefStore) (key : String)
    (wd : WorkloadDefinition) (s : Schematic) (cue : CUE)
    (hcd : store.componentDefs key = Except.error GetErr.notFound)
    (hwd : store.workloadDefs key = Except.ok wd)
    (hs : wd.Spec.Schematic = some s)
    (hcue : s.CUE = some cue) :
    (LoadTemplate store key CapType.typeComponentDefinition).map
        (fun t => (t.TemplateStr, t.Reference, t.CapabilityCategory)) =
      Except.ok (cue.Template, ({} : WorkloadGVK), CapabilityCategory.Plain) := by
  simp only [LoadTemplate, hcd, hwd]
  simp only [componentFinish, NewTemplate, schematicShortCircuit, hs, hcue]
  simp [annLookup, statusStep_CapabilityCategory, Except.map]

/-- WorkloadDefinition with a CUE body and a terraform `type` annotation. -/
def c5WD : WorkloadDefinition :=
  { Annotations := [("type", "terraform")],
    Spec := { Schematic := some { CUE := some { Template := "wl body" } } } }

/-- Store with no ComponentDefinitions and `c5WD` under "legacy". -/
def c5Store : DefStore :=
  { componentDefs := fun _ => Except.error GetErr.notFound,
    workloadDefs := fun k => if k == "legacy" then Except.ok c5WD else Except.error GetErr.notFound,
    traitDefs := fun _ => Except.error GetErr.notFound }

/-- Witness for C5: the fallback WorkloadDefinition's terraform annotation
is ignored; the result keeps the zero reference and the Plain category. -/
theorem C5_witness :
    (LoadTemplate c5Store "legacy" CapType.typeComponentDefinition).map
        (fun t => (t.TemplateStr, t.Reference, t.CapabilityCategory)) =
      Except.ok ("wl body", ({} : WorkloadGVK), CapabilityCategory.Plain) :=
  C5_workload_fallback c5Store "legacy" c5WD
    { CUE := some { Template := "wl body" } } { Template := "wl body" } rfl rfl rfl rfl

/-- Whether neither schematic variant is set (schematic nil, or both the
CUE and the HELM pointer nil), i.e. nothing short-circuits extraction. -/
def schematicNoVariant : Option Schematic → Bool
  | none => true
  | some s => s.CUE.isNone && s.HELM.isNone

/-- Whether the raw extension payload is present and fails to decode as a
string-keyed map. -/
def rawMalformed : Option RawExtension → Bool
  | none => false
  | some r =>
    match r.unmarshalMap with
    | Except.error _ => true
    | Except.ok _ => false

/-- C7: `NewTemplate` returns an error exactly when the extension payload
is present, no CUE or Helm variant short-circuited extraction, and the
payload fails to decode; in every other case it succeeds with a non-nil
Template, and on all-nil input the entirely empty Template is the (valid)
result. -/
theorem C7_extractor_totality (s : Option Schematic) (st : Option Status)
    (r : Option RawExtension) :
    ((NewTemplate s st r).2.isSome = (schematicNoVariant s && rawMalformed r)) ∧
    ((NewTemplate s st r).1.isSome = !(schematicNoVariant s && rawMalformed r)) ∧
    NewTemplate none none none = (some ({} : Template), none) := by
  have key : ((rawExtensionStep (statusStep st) r).2.isSome = rawMalformed r) ∧
      ((rawExtensionStep (statusStep st) r).1.isSome = !(rawMalformed r)) := by
    unfold rawExtensionStep rawMalformed
    simp only [statusStep_TemplateStr st]
    cases r with
    | none => simp
    | some re =>
      cases hm : re.unmarshalMap with
      | error e => simp [hm]
      | ok ext =>
        cases hl : ext.lookup "template" with
        | none => simp [hm, hl]
        | some v => cases v <;> simp [hm, hl]
  refine ⟨?_, ?_, rfl⟩ <;>
  cases s with
  | none => simp [NewTemplate, schematicShortCircuit, schematicNoVariant, key.1, key.2]
  | some sch =>
    cases hc : sch.CUE with
    | some cue => simp [NewTemplate, schematicShortCircuit, schematicNoVariant, hc]
    | none =>
      cases hh : sch.HELM with
      | some hm => simp [NewTemplate, schematicShortCircuit, schematicNoVariant, hc, hh]
      | none =>
        simp [NewTemplate, schematicShortCircuit, schematicNoVariant, hc, hh, key.1, key.2]

/-- Any template coming out of the extension step keeps the status fields
of the template it started from. -/
theorem rawExtensionStep_status_fields (tmp : Template) (raw : Option RawExtension)
    (t : Template) (h : (rawExtensionStep tmp raw).1 = some t) :
    t.CustomStatus = tmp.CustomStatus ∧ t.Health = tmp.Health := by
  unfold rawExtensionStep at h
  split at h
  · cases raw with
    | none =>
      simp at h
      subst h
      exact ⟨rfl, rfl⟩
    | some re =>
      cases hm : re.unmarshalMap with
      | error e => simp [hm] at h
      | ok ext =>
        cases hl : ext.lookup "template" with
        | none =>
          simp [hm, hl] at h
          subst h
          exact ⟨rfl, rfl⟩
        | some v =>
          cases v <;> simp [hm, hl] at h <;> subst h <;> exact ⟨rfl, rfl⟩
  · simp at h
    subst h
    exact ⟨rfl, rfl⟩

/-- Any template coming out of `NewTemplate` keeps the status fields set
by the initial status copy, whichever branch produced it. -/
theorem NewTemplate_status_fields (s : Option Schematic) (st : Option Status)
    (r : Option RawExtension) (t : Template)
    (h : (NewTemplate s st r).1 = some t) :
    t.CustomStatus = (statusStep st).CustomStatus ∧
    t.Health = (statusStep st).Health := by
  cases s with
  | none =>
    have h' : (rawExtensionStep (statusStep st) r).1 = some t := by
      simpa [NewTemplate, schematicShortCircuit] using h
    exact rawExtensionStep_status_fields _ _ _ h'
  | some sch =>
    cases hc : sch.CUE with
    | some cue =>
      simp [NewTemplate, schematicShortCircuit, hc] at h
      subst h
      exact ⟨rfl, rfl⟩
    | none =>
      cases hh : sch.HELM with
      | some hm =>
        simp [NewTemplate, schematicShortCircuit, hc, hh] at h
        subst h
        exact ⟨rfl, rfl⟩
      | none =>
        have h' : (rawExtensionStep (statusStep st) r).1 = some t := by
          simpa [NewTemplate, schematicShortCircuit, hc, hh] using h
        exact rawExtensionStep_status_fields _ _ _ h'

/-- C8: whenever the status pair is present, every template `NewTemplate`
returns carries its custom-status rule and its health rule, regardless of
which branch (CUE, Helm, or legacy extension) produced the template. -/
theorem C8_status_copied (s : Option Schematic) (st : Status)
    (r : Option RawExtension) (t : Template)
    (h : (NewTemplate s (some st) r).1 = some t) :
    t.CustomStatus = st.CustomStatus ∧ t.Health = st.HealthPolicy := by
  simpa [statusStep] using NewTemplate_status_fields s (some st) r t h

/-- A concrete status pair for the C8 witness. -/
def c8Status : Status := { CustomStatus := "cs rule", HealthPolicy := "hp rule" }

/-- The template the extractor produces for the C8 witness input. -/
def c8Result : Template :=
  { TemplateStr := "cue c8", Health := "hp rule", CustomStatus := "cs rule" }

/-- Witness for C8: on a CUE-schematic input with a status pair, the
returned template carries both status rules. -/
theorem C8_witness :
    c8Result.CustomStatus = c8Status.CustomStatus ∧
    c8Result.Health = c8Status.HealthPolicy :=
  C8_status_copied (some { CUE := some { Template := "cue c8" } }) c8Status none
    c8Result (by decide)

/-- TraitDefinition with no schematic, no status and no extension: its
extraction yields the entirely empty template. -/
def c1TD : TraitDefinition := { Annotations := [], Spec := {} }

/-- Store holding only the empty trait definition `c1TD` under "empty". -/
def c1Store : DefStore :=
  { componentDefs := fun _ => Except.error GetErr.notFound,
    workloadDefs := fun _ => Except.error GetErr.notFound,
    traitDefs := fun k => if k == "empty" then Except.ok c1TD else Except.error GetErr.notFound }

/-- Counterexample to C1: the located trait definition extracts to the
empty template (empty body, nil Helm), yet `LoadTemplate` succeeds and
returns that empty Template instead of failing with the no-template
error. -/
theorem C1_counterexample :
    NewTemplate c1TD.Spec.Schematic c1TD.Spec.Status c1TD.Spec.Extension =
      (some ({} : Template), none) ∧
    LoadTemplate c1Store "empty" CapType.typeTrait = Except.ok ({} : Template) := by
  constructor <;> decide

/-- C1 (amended): the no-template error is guarded by a nil-pointer check
that can never fire, because the extractor always returns a non-nil
template on success; so `LoadTemplate` never fails with it, and a
resolution whose extraction yields empty body and nil Helm succeeds,
returning that empty template. -/
theorem C1_amended :
    (∀ (store : DefStore) (key : String) (kd : CapType),
      LoadTemplate store key kd ≠ Except.error LoadError.noTemplateFound) ∧
    (∀ (store : DefStore) (key : String) (td : TraitDefinition) (t : Template),
      store.traitDefs key = Except.ok td →
      NewTemplate td.Spec.Schematic td.Spec.Status td.Spec.Extension = (some t, none) →
      t.TemplateStr = "" → t.Helm = none →
      (LoadTemplate store key CapType.typeTrait).map (fun u => (u.TemplateStr, u.Helm)) =
        Except.ok ("", none)) ∧
    (∀ (store : DefStore) (key : String) (cd : ComponentDefinition) (t : Template),
      store.componentDefs key = Except.ok cd →
      NewTemplate cd.Spec.Schematic cd.Spec.Status cd.Spec.Extension = (some t, none) →
      t.TemplateStr = "" → t.Helm = none →
      (LoadTemplate store key CapType.typeComponentDefinition).map
          (fun u => (u.TemplateStr, u.Helm)) =
        Except.ok ("", none)) := by
  refine ⟨?_, ?_, ?_⟩
  · intro store key kd hc
    cases kd with
    | typeScope => simp [LoadTemplate] at hc
    | typeTrait =>
      cases hg : store.traitDefs key with
      | error e => simp [LoadTemplate, hg] at hc
      | ok td =>
        rcases NewTemplate_shape td.Spec.Schematic td.Spec.Status td.Spec.Extension with
          ⟨t, ht⟩ | ⟨e, he⟩
        · simp [LoadTemplate, hg, ht] at hc
        · simp [LoadTemplate, hg, he] at hc
    | typeComponentDefinition =>
      cases hg : store.componentDefs key with
      | ok cd =>
        rcases NewTemplate_shape cd.Spec.Schematic cd.Spec.Status cd.Spec.Extension with
          ⟨t, ht⟩ | ⟨e, he⟩
        · simp [LoadTemplate, componentFinish, hg, ht] at hc
        · simp [LoadTemplate, componentFinish, hg, he] at hc
      | error e =>
        cases e with
        | notFound =>
          cases hw : store.workloadDefs key with
          | error e2 => simp [LoadTemplate, hg, hw] at hc
          | ok wd =>
            rcases NewTemplate_shape wd.Spec.Schematic wd.Spec.Status wd.Spec.Extension with
              ⟨t, ht⟩ | ⟨e2, he⟩
            · simp [LoadTemplate, componentFinish, hg, hw, ht] at hc
            · simp [LoadTemplate, componentFinish, hg, hw, he] at hc
        | other m => simp [LoadTemplate, hg] at hc
  · intro store key td t hg hNT hstr hhelm
    simp only [LoadTemplate, hg, hNT]
    simp [Except.map, hstr, hhelm]
  · intro store key cd t hg hNT hstr hhelm
    simp only [LoadTemplate, componentFinish, hg, hNT]
    split <;> simp [Except.map, hstr, hhelm]

/-- Witness for the amended C1: the empty trait definition resolves
successfully to the empty template. -/
theorem C1_amended_witness :
    (LoadTemplate c1Store "empty" CapType.typeTrait).map (fun u => (u.TemplateStr, u.Helm)) =
      Except.ok ("", none) :=
  C1_amended.2.1 c1Store "empty" c1TD {} rfl (by decide) rfl rfl

/-- A concrete Helm reference for the C2 scenario. -/
def c2Helm : Helm := { release := "redis", repository := "bitnami" }

/-- TraitDefinition whose schematic has only the Helm variant and whose
annotations carry no `type` key. -/
def c2TD : TraitDefinition :=
  { Annotations := [],
    Spec := { Schematic := some { CUE := none, HELM := some c2Helm } } }

/-- Store holding only the Helm-backed trait `c2TD` under "helmtrait". -/
def c2Store : DefStore :=
  { componentDefs := fun _ => Except.error GetErr.notFound,
    workloadDefs := fun _ => Except.error GetErr.notFound,
    traitDefs := fun k => if k == "helmtrait" then Except.ok c2TD else Except.error GetErr.notFound }

/-- Counterexample to C2: for a Trait-kind resolution with a nil CUE
variant, a non-nil Helm variant and no terraform annotation, the returned
template carries the Helm reference but its category is Plain, not Helm —
the trait branch overwrites the category the extractor set with the
annotation-derived one. -/
theorem C2_counterexample :
    LoadTemplate c2Store "helmtrait" CapType.typeTrait =
      Except.ok { Helm := some c2Helm, CapabilityCategory := CapabilityCategory.Plain } ∧
    (LoadTemplate c2Store "helmtrait" CapType.typeTrait).map
        (fun t => t.CapabilityCategory) ≠ Except.ok CapabilityCategory.Helm := by
  constructor <;> decide

/-- C2 (amended): with nil CUE, non-nil Helm and no terraform annotation,
a Component-kind resolution returns the Helm reference with the Helm
category, set structurally by the extractor; a Trait-kind resolution also
returns the Helm reference but unconditionally overwrites the category
with the annotation-derived one, leaving Plain. -/
theorem C2_amended :
    (∀ (store : DefStore) (key : String) (cd : ComponentDefinition)
        (s : Schematic) (h : Helm),
      store.componentDefs key = Except.ok cd →
      cd.Spec.Schematic = some s → s.CUE = none → s.HELM = some h →
      annLookup cd.Annotations "type" ≠ "terraform" →
      (LoadTemplate store key CapType.typeComponentDefinition).map
          (fun t => (t.Helm, t.CapabilityCategory)) =
        Except.ok (some h, CapabilityCategory.Helm)) ∧
    (∀ (store : DefStore) (key : String) (td : TraitDefinition)
        (s : Schematic) (h : Helm),
      store.traitDefs key = Except.ok td →
      td.Spec.Schematic = some s → s.CUE = none → s.HELM = some h →
      annLookup td.Annotations "type" ≠ "terraform" →
      (LoadTemplate store key CapType.typeTrait).map
          (fun t => (t.Helm, t.CapabilityCategory)) =
        Except.ok (some h, CapabilityCategory.Plain)) := by
  constructor
  · intro store key cd s h hget hs hcue hhelm hann
    simp only [LoadTemplate, hget]
    simp only [componentFinish, NewTemplate, schematicShortCircuit, hs, hcue, hhelm]
    simp [Except.map, hann]
  · intro store key td s h hget hs hcue hhelm hann
    simp only [LoadTemplate, hget]
    simp only [NewTemplate, schematicShortCircuit, hs, hcue, hhelm]
    simp [Except.map, hann]

/-- ComponentDefinition whose schematic has only the Helm variant. -/
def c2CD : ComponentDefinition :=
  { Annotations := [],
    Spec := { Schematic := some { CUE := none, HELM := some c2Helm } } }

/-- Store holding only the Helm-backed component `c2CD` under "helmcomp". -/
def c2CompStore : DefStore :=
  { componentDefs := fun k => if k == "helmcomp" then Except.ok c2CD else Except.error GetErr.notFound,
    workloadDefs := fun _ => Except.error GetErr.notFound,
    traitDefs := fun _ => Except.error GetErr.notFound }

/-- Witness for the amended C2: the Component-kind Helm resolution keeps
the structurally-set Helm category. -/
theorem C2_amended_witness :
    (LoadTemplate c2CompStore "helmcomp" CapType.typeComponentDefinition).map
        (fun t => (t.Helm, t.CapabilityCategory)) =
      Except.ok (some c2Helm, CapabilityCategory.Helm) :=
  C2_amended.1 c2CompStore "helmcomp" c2CD { CUE := none, HELM := some c2Helm } c2Helm
    rfl rfl rfl rfl (by decide)

/-- An extension payload whose bytes are not valid JSON: both decodings
fail with the parse cause. -/
def c3BadExt : RawExtension :=
  { unmarshalMap := Except.error "unexpected end of JSON input",
    unmarshalCap := fun _ => Except.error "unexpected end of JSON input" }

/-- ComponentDefinition carrying a CUE variant together with the malformed
extension payload. -/
def c3CD : ComponentDefinition :=
  { Spec := { Schematic := some { CUE := some { Template := "out c3" } },
              Extension := some c3BadExt } }

/-- Store holding only `c3CD` under "withcue". -/
def c3Store : DefStore :=
  { componentDefs := fun k => if k == "withcue" then Except.ok c3CD else Except.error GetErr.notFound,
    workloadDefs := fun _ => Except.error GetErr.notFound,
    traitDefs := fun _ => Except.error GetErr.notFound }

/-- Counterexample to C3: the definition's extension payload is malformed
JSON, yet because a CUE variant is populated the payload is never parsed
and resolution succeeds — the claimed "regardless of which other fields
are populated" fails for the schematic variants. -/
theorem C3_counterexample :
    LoadTemplate c3Store "withcue" CapType.typeComponentDefinition =
      Except.ok { TemplateStr := "out c3" } := by decide

/-- When no schematic variant short-circuits and the payload fails to
decode, `NewTemplate` returns the Go pair `(nil, cause)`. -/
theorem NewTemplate_malformed (s : Option Schematic) (st : Option Status)
    (re : RawExtension) (msg : String)
    (hnv : schematicNoVariant s = true)
    (hm : re.unmarshalMap = Except.error msg) :
    NewTemplate s st (some re) = (none, some msg) := by
  cases s with
  | none =>
    simp [NewTemplate, schematicShortCircuit, rawExtensionStep,
      statusStep_TemplateStr, hm]
  | some sch =>
    simp only [schematicNoVariant, Bool.and_eq_true, Option.isNone_iff_eq_none] at hnv
    simp [NewTemplate, schematicShortCircuit, hnv.1, hnv.2, rawExtensionStep,
      statusStep_TemplateStr, hm]

/-- When a CUE or Helm variant is populated, `NewTemplate` short-circuits
and succeeds whatever the status and the raw extension payload are — the
payload is never decoded. -/
theorem NewTemplate_variant_succeeds (s : Option Schematic) (st : Option Status)
    (r : Option RawExtension) (h : schematicNoVariant s = false) :
    ∃ t, NewTemplate s st r = (some t, none) := by
  cases s with
  | none => simp [schematicNoVariant] at h
  | some sch =>
    cases hc : sch.CUE with
    | some cue =>
      refine ⟨{ (statusStep st) with TemplateStr := cue.Template }, ?_⟩
      simp [NewTemplate, schematicShortCircuit, hc]
    | none =>
      cases hh : sch.HELM with
      | some hm =>
        refine ⟨{ (statusStep st) with Helm := some hm, CapabilityCategory := CapabilityCategory.Helm }, ?_⟩
        simp [NewTemplate, schematicShortCircuit, hc, hh]
      | none => simp [schematicNoVariant, hc, hh] at h

/-- Once `NewTemplate` succeeds, the component assembly always returns a
template: reference attachment and the annotation check cannot fail. -/
theorem componentFinish_ok (key : String) (cd : ComponentDefinition)
    (sch : Option Schematic) (st : Option Status) (ext : Option RawExtension)
    (t : Template) (h : NewTemplate sch st ext = (some t, none)) :
    ∃ u, componentFinish key cd sch st ext = Except.ok u := by
  simp only [componentFinish, h]
  exact ⟨_, rfl⟩

/-- C3 (amended): a present-but-malformed extension payload makes
resolution fail with the wrapped parse cause, with no partial template,
exactly when no CUE or Helm variant short-circuits extraction — on the
direct component path, the workload fallback path and the trait path
alike; when a CUE or Helm variant is populated the payload is never
parsed and resolution succeeds whatever the payload holds. -/
theorem C3_amended :
    ((∀ (store : DefStore) (key : String) (cd : ComponentDefinition)
        (re : RawExtension) (msg : String),
      store.componentDefs key = Except.ok cd →
      schematicNoVariant cd.Spec.Schematic = true →
      cd.Spec.Extension = some re →
      re.unmarshalMap = Except.error msg →
      LoadTemplate store key CapType.typeComponentDefinition =
        Except.error (LoadError.templateFailed key msg)) ∧
    (∀ (store : DefStore) (key : String) (wd : WorkloadDefinition)
        (re : RawExtension) (msg : String),
      store.componentDefs key = Except.error GetErr.notFound →
      store.workloadDefs key = Except.ok wd →
      schematicNoVariant wd.Spec.Schematic = true →
      wd.Spec.Extension = some re →
      re.unmarshalMap = Except.error msg →
      LoadTemplate store key CapType.typeComponentDefinition =
        Except.error (LoadError.templateFailed key msg)) ∧
    (∀ (store : DefStore) (key : String) (td : TraitDefinition)
        (re : RawExtension) (msg : String),
      store.traitDefs key = Except.ok td →
      schematicNoVariant td.Spec.Schematic = true →
      td.Spec.Extension = some re →
      re.unmarshalMap = Except.error msg →
      LoadTemplate store key CapType.typeTrait =
        Except.error (LoadError.templateFailed key msg))) ∧
    ((∀ (store : DefStore) (key : String) (cd : ComponentDefinition),
      store.componentDefs key = Except.ok cd →
      schematicNoVariant cd.Spec.Schematic = false →
      ∃ u, LoadTemplate store key CapType.typeComponentDefinition = Except.ok u) ∧
    (∀ (store : DefStore) (key : String) (wd : WorkloadDefinition),
      store.componentDefs key = Except.error GetErr.notFound →
      store.workloadDefs key = Except.ok wd →
      schematicNoVariant wd.Spec.Schematic = false →
      ∃ u, LoadTemplate store key CapType.typeComponentDefinition = Except.ok u) ∧
    (∀ (store : DefStore) (key : String) (td : TraitDefinition),
      store.traitDefs key = Except.ok td →
      schematicNoVariant td.Spec.Schematic = false →
      ∃ u, LoadTemplate store key CapType.typeTrait = Except.ok u)) := by
  refine ⟨⟨?_, ?_, ?_⟩, ?_, ?_, ?_⟩
  · intro store key cd re msg hget hnv hext hm
    simp only [LoadTemplate, hget]
    simp [componentFinish, hext, NewTemplate_malformed _ cd.Spec.Status re msg hnv hm]
  · intro store key wd re msg hcd hwd hnv hext hm
    simp only [LoadTemplate, hcd, hwd]
    simp [componentFinish, hext, NewTemplate_malformed _ wd.Spec.Status re msg hnv hm]
  · intro store key td re msg hget hnv hext hm
    simp only [LoadTemplate, hget]
    simp [hext, NewTemplate_malformed _ td.Spec.Status re msg hnv hm]
  · intro store key cd hget hv
    obtain ⟨t, ht⟩ :=
      NewTemplate_variant_succeeds cd.Spec.Schematic cd.Spec.Status cd.Spec.Extension hv
    obtain ⟨u, hu⟩ := componentFinish_ok key cd _ _ _ t ht
    exact ⟨u, by simp only [LoadTemplate, hget]; exact hu⟩
  · intro store key wd hcd hwd hv
    obtain ⟨t, ht⟩ :=
      NewTemplate_variant_succeeds wd.Spec.Schematic wd.Spec.Status wd.Spec.Extension hv
    obtain ⟨u, hu⟩ := componentFinish_ok key {} wd.Spec.Schematic wd.Spec.Status wd.Spec.Extension t ht
    exact ⟨u, by simp only [LoadTemplate, hcd, hwd]; exact hu⟩
  · intro store key td hget hv
    obtain ⟨t, ht⟩ :=
      NewTemplate_variant_succeeds td.Spec.Schematic td.Spec.Status td.Spec.Extension hv
    refine ⟨{ t with CapabilityCategory := (if annLookup td.Annotations "type" == "terraform" then CapabilityCategory.Terraform else CapabilityCategory.Plain) }, ?_⟩
    simp [LoadTemplate, hget, ht]

/-- ComponentDefinition with no schematic at all and the malformed
extension payload. -/
def c3PlainCD : ComponentDefinition := { Spec := { Extension := some c3BadExt } }

/-- Store holding only `c3PlainCD` under "plain". -/
def c3PlainStore : DefStore :=
  { componentDefs := fun k => if k == "plain" then Except.ok c3PlainCD else Except.error GetErr.notFound,
    workloadDefs := fun _ => Except.error GetErr.notFound,
    traitDefs := fun _ => Except.error GetErr.notFound }

/-- Witness for the amended C3: with no schematic variant, the malformed
payload makes resolution fail with the wrapped parse cause. -/
theorem C3_amended_witness :
    LoadTemplate c3PlainStore "plain" CapType.typeComponentDefinition =
      Except.error (LoadError.templateFailed "plain" "unexpected end of JSON input") :=
  C3_amended.1.1 c3PlainStore "plain" c3PlainCD c3BadExt "unexpected end of JSON input"
    rfl rfl rfl rfl

/-- C9: when extraction over (schematic, extension) succeeds and the
full-descriptor unmarshal step succeeds, `ConvertTemplateJSON2Object`
returns the unmarshalled descriptor with the extracted template string
overlaid onto its CUE-template field when that string is non-empty, and
with the descriptor's own value kept when it is empty. -/
theorem C9_overlay (name : String) (iN : Option RawExtension)
    (s : Option Schematic) (t : Template) (t2 : Capability)
    (hN : NewTemplate s none iN = (some t, none))
    (hU : capUnmarshalStep iN { Name := name } = Except.ok t2) :
    ConvertTemplateJSON2Object name iN s =
      (if t.TemplateStr != "" then { t2 with CueTemplate := t.TemplateStr } else t2,
        none) := by
  simp only [ConvertTemplateJSON2Object, hN, hU, Option.getD_some]
  split <;> rfl

/-- Extension payload for the C9 witness: the map decoding exposes a
`template` string, and the descriptor decoding sets both the CUE-template
field and an extra descriptor field. -/
def c9Ext : RawExtension :=
  { unmarshalMap := Except.ok [("template", JValue.str "ext body")],
    unmarshalCap := fun c =>
      Except.ok { c with CueTemplate := "ext body", Description := "desc" } }

/-- Schematic with a CUE body for the C9 witness. -/
def c9Sch : Schematic := { CUE := some { Template := "cue body c9" } }

/-- Witness for C9: the extension unmarshal assigns "ext body" to the
CUE-template field, but the non-empty extracted string "cue body c9"
overrides it, while the extra descriptor field survives. -/
theorem C9_witness :
    ConvertTemplateJSON2Object "cap" (some c9Ext) (some c9Sch) =
      ({ Name := "cap", Description := "desc", CueTemplate := "cue body c9" }, none) := by
  rw [C9_overlay "cap" (some c9Ext) (some c9Sch)
      { TemplateStr := "cue body c9" }
      { Name := "cap", Description := "desc", CueTemplate := "ext body" }
      (by decide) (by decide)]
  decide
